import Mathlib

/-!
Verification development for the chartype repository: a typed vocabulary
for market-data records (candles and tickers) with field enumerations,
validation, a text/JSON codec and generic extraction.

The richest variant of the design (six ticker fields, with a text
encoder `MarshalText`) is the one the specification describes; where its
implementation is absent from the sources and only its tests remain, its
definitions below are modelled from the specification and are marked so
in their doc comments (namespace `Rich`, and `CandleField.MarshalText`).
Everything else is translated from `types.go`.
-/

namespace Chartype

/-- Exact-decimal number, modelling `decimal.Decimal` of
github.com/shopspring/decimal: an integer coefficient and a base-10
exponent (the represented number is `value * 10 ^ exp`). -/
structure Decimal where
  value : Int
  exp : Int
deriving DecidableEq, Repr

/-- `decimal.Zero`, which the library defines as `New(0, 1)`. -/
def Decimal.zero : Decimal := ⟨0, 1⟩

/-- `decimal.NewFromInt`. -/
def NewFromInt (n : Int) : Decimal := ⟨n, 0⟩

/-- `Candle` from types.go: a timestamp (modelled as an opaque tick
count) plus five exact-decimal magnitudes. -/
structure Candle where
  Timestamp : Int
  Open : Decimal
  High : Decimal
  Low : Decimal
  Close : Decimal
  Volume : Decimal
deriving DecidableEq, Repr

/-- `Ticker` from types.go (the variant present in the sources): four
exact-decimal magnitudes. -/
structure Ticker where
  Last : Decimal
  Ask : Decimal
  Bid : Decimal
  Change : Decimal
deriving DecidableEq, Repr

/-- Go `type CandleField int`. -/
abbrev CandleField := Int

/-- Go `type TickerField int` (the four-member variant in types.go). -/
abbrev TickerField := Int

def CandleOpen : CandleField := 1
def CandleHigh : CandleField := 2
def CandleLow : CandleField := 3
def CandleClose : CandleField := 4
def CandleVolume : CandleField := 5

def TickerLast : TickerField := 1
def TickerAsk : TickerField := 2
def TickerBid : TickerField := 3
def TickerChange : TickerField := 4

/-- The error values observable from the package: the two sentinel
errors of types.go, plus the structural error kind produced by the JSON
layer (`encoding/json`) when the payload is not a well-formed string
container — the specification calls that kind `MalformedPayload`. -/
inductive Err where
  | invalidCandleField
  | invalidTickerField
  | malformedPayload
deriving DecidableEq, Repr

def ErrInvalidCandleField : Err := .invalidCandleField
def ErrInvalidTickerField : Err := .invalidTickerField
def ErrMalformedPayload : Err := .malformedPayload

/-- `CandleField.Validate` from types.go. -/
def CandleField.Validate (cf : CandleField) : Except Err Unit :=
  if cf = CandleOpen ∨ cf = CandleHigh ∨ cf = CandleLow ∨ cf = CandleClose ∨ cf = CandleVolume then
    .ok ()
  else
    .error ErrInvalidCandleField

/-- `TickerField.Validate` from types.go. -/
def TickerField.Validate (tf : TickerField) : Except Err Unit :=
  if tf = TickerLast ∨ tf = TickerAsk ∨ tf = TickerBid ∨ tf = TickerChange then
    .ok ()
  else
    .error ErrInvalidTickerField

/-- Models `json.Marshal` applied to a Go string none of whose
characters need escaping (every field token is such a string): the
result is the string wrapped in double quotes. -/
def jsonMarshalString (s : String) : String := "\"" ++ s ++ "\""

/-- `CandleField.MarshalJSON` from types.go: pick the canonical token by
a switch on the field, then `json.Marshal` it. -/
def CandleField.MarshalJSON (cf : CandleField) : Except Err String :=
  if cf = CandleOpen then .ok (jsonMarshalString "open")
  else if cf = CandleHigh then .ok (jsonMarshalString "high")
  else if cf = CandleLow then .ok (jsonMarshalString "low")
  else if cf = CandleClose then .ok (jsonMarshalString "close")
  else if cf = CandleVolume then .ok (jsonMarshalString "volume")
  else .error ErrInvalidCandleField

/-- `TickerField.MarshalJSON` from types.go. -/
def TickerField.MarshalJSON (tf : TickerField) : Except Err String :=
  if tf = TickerLast then .ok (jsonMarshalString "last")
  else if tf = TickerAsk then .ok (jsonMarshalString "ask")
  else if tf = TickerBid then .ok (jsonMarshalString "bid")
  else if tf = TickerChange then .ok (jsonMarshalString "change")
  else .error ErrInvalidTickerField

/-- Whitespace characters `encoding/json` skips around a top-level
value. -/
def jsonIsSpace (c : Char) : Bool := c = ' ' || c = '\t' || c = '\n' || c = '\r'

/-- Value of a hexadecimal digit, if the character is one. -/
def hexDigitVal (c : Char) : Option Nat :=
  if '0' ≤ c ∧ c ≤ '9' then some (c.toNat - '0'.toNat)
  else if 'a' ≤ c ∧ c ≤ 'f' then some (c.toNat - 'a'.toNat + 10)
  else if 'A' ≤ c ∧ c ≤ 'F' then some (c.toNat - 'A'.toNat + 10)
  else none

/-- The character denoted by a decoded `\uXXXX` code unit; a lone
surrogate becomes U+FFFD, as in Go's `encoding/json`. -/
def unicodeChar (n : Nat) : Char :=
  if 0xD800 ≤ n ∧ n < 0xE000 then '�' else Char.ofNat n

/-- Body of a JSON string, after the opening quote: returns the decoded
content and the input remaining after the closing quote, or `none` when
the string is unterminated, holds a raw control character, or has a bad
escape. Models the string scanning of Go's `encoding/json` (surrogate
pairs are decoded unit by unit; no claim below depends on pair
recombination). -/
def parseStringBody : List Char → List Char → Option (String × List Char)
  | [], _ => none
  | '"' :: rest, acc => some (⟨acc.reverse⟩, rest)
  | '\\' :: esc, acc =>
    match esc with
    | '"' :: r => parseStringBody r ('"' :: acc)
    | '\\' :: r => parseStringBody r ('\\' :: acc)
    | '/' :: r => parseStringBody r ('/' :: acc)
    | 'b' :: r => parseStringBody r (Char.ofNat 8 :: acc)
    | 'f' :: r => parseStringBody r (Char.ofNat 12 :: acc)
    | 'n' :: r => parseStringBody r ('\n' :: acc)
    | 'r' :: r => parseStringBody r ('\r' :: acc)
    | 't' :: r => parseStringBody r ('\t' :: acc)
    | 'u' :: h1 :: h2 :: h3 :: h4 :: r =>
      match hexDigitVal h1, hexDigitVal h2, hexDigitVal h3, hexDigitVal h4 with
      | some a, some b, some c, some d =>
        parseStringBody r (unicodeChar (((a * 16 + b) * 16 + c) * 16 + d) :: acc)
      | _, _, _, _ => none
    | _ => none
  | c :: rest, acc => if c.toNat < 0x20 then none else parseStringBody rest (c :: acc)

/-- Models `json.Unmarshal(d, &f)` with `f` a Go string: the payload
must be a JSON string scalar, optionally surrounded by whitespace. Any
other payload — malformed JSON, trailing garbage, or a non-string
value — is a structural error, the kind the specification names
`MalformedPayload`. -/
def jsonUnmarshalString (d : String) : Except Err String :=
  match d.toList.dropWhile jsonIsSpace with
  | '"' :: rest =>
    match parseStringBody rest [] with
    | some (s, rest2) =>
      if (rest2.dropWhile jsonIsSpace).isEmpty then .ok s else .error ErrMalformedPayload
    | none => .error ErrMalformedPayload
  | _ => .error ErrMalformedPayload

/-- Models `strings.ToLower` on the ASCII range (every token in the
field tables is plain ASCII). -/
def stringsToLower (s : String) : String := ⟨s.toList.map Char.toLower⟩

/-- Models `strings.ToUpper` on the ASCII range. -/
def stringsToUpper (s : String) : String := ⟨s.toList.map Char.toUpper⟩

/-- `CandleField.UnmarshalJSON` from types.go, as a function from the
receiver's prior value and the payload to the receiver's new value
paired with the returned error (`none` = nil): the receiver is assigned
only in the success branches, exactly as in the source. -/
def CandleField.UnmarshalJSON (cf : CandleField) (d : String) : CandleField × Option Err :=
  match jsonUnmarshalString d with
  | .error e => (cf, some e)
  | .ok f0 =>
    let f := stringsToLower f0
    if f = "open" ∨ f = "o" then (CandleOpen, none)
    else if f = "high" ∨ f = "h" then (CandleHigh, none)
    else if f = "low" ∨ f = "l" then (CandleLow, none)
    else if f = "close" ∨ f = "c" then (CandleClose, none)
    else if f = "volume" ∨ f = "v" then (CandleVolume, none)
    else (cf, some ErrInvalidCandleField)

/-- `TickerField.UnmarshalJSON` from types.go. -/
def TickerField.UnmarshalJSON (tf : TickerField) (d : String) : TickerField × Option Err :=
  match jsonUnmarshalString d with
  | .error e => (tf, some e)
  | .ok t0 =>
    let t := stringsToLower t0
    if t = "last" ∨ t = "l" then (TickerLast, none)
    else if t = "ask" ∨ t = "a" then (TickerAsk, none)
    else if t = "bid" ∨ t = "b" then (TickerBid, none)
    else if t = "change" ∨ t = "c" then (TickerChange, none)
    else (tf, some ErrInvalidTickerField)

/-- `CandleField.Extract` from types.go. -/
def CandleField.Extract (cf : CandleField) (c : Candle) : Decimal :=
  if cf = CandleOpen then c.Open
  else if cf = CandleHigh then c.High
  else if cf = CandleLow then c.Low
  else if cf = CandleClose then c.Close
  else if cf = CandleVolume then c.Volume
  else Decimal.zero

/-- `TickerField.Extract` from types.go. -/
def TickerField.Extract (tf : TickerField) (t : Ticker) : Decimal :=
  if tf = TickerLast then t.Last
  else if tf = TickerAsk then t.Ask
  else if tf = TickerBid then t.Bid
  else if tf = TickerChange then t.Change
  else Decimal.zero

/-- `FromCandles` from types.go: an append loop over the input. -/
def FromCandles (cc : List Candle) (cf : CandleField) : List Decimal :=
  cc.foldl (fun res c => res ++ [CandleField.Extract cf c]) []

/-- Modelled from the spec: the text encoder `CandleField.MarshalText`
of the richest variant is not among the sources (only its tests are);
per §4.3 it returns the canonical lowercase long-form token of a valid
field and fails with the invalid-field error otherwise. -/
def CandleField.MarshalText (cf : CandleField) : Except Err String :=
  if cf = CandleOpen then .ok "open"
  else if cf = CandleHigh then .ok "high"
  else if cf = CandleLow then .ok "low"
  else if cf = CandleClose then .ok "close"
  else if cf = CandleVolume then .ok "volume"
  else .error ErrInvalidCandleField

namespace Rich

/-- Modelled from the spec: the `Ticker` record of the richest variant
(six exact-decimal magnitudes, §3) — its implementation file is not
among the sources, only its tests. -/
structure Ticker where
  Last : Decimal
  Ask : Decimal
  Bid : Decimal
  Change : Decimal
  PercentChange : Decimal
  Volume : Decimal
deriving DecidableEq, Repr

/-- Modelled from the spec: `type TickerField int` of the richest
variant. -/
abbrev TickerField := Int

def TickerLast : TickerField := 1
def TickerAsk : TickerField := 2
def TickerBid : TickerField := 3
def TickerChange : TickerField := 4
def TickerPercentChange : TickerField := 5
def TickerVolume : TickerField := 6

/-- Modelled from the spec: `TickerField.Validate` of the richest
variant (§4.1/§4.2): exactly the six members are accepted. -/
def TickerField.Validate (tf : TickerField) : Except Err Unit :=
  if tf = TickerLast ∨ tf = TickerAsk ∨ tf = TickerBid ∨ tf = TickerChange ∨
      tf = TickerPercentChange ∨ tf = TickerVolume then
    .ok ()
  else
    .error ErrInvalidTickerField

/-- Modelled from the spec: `TickerField.MarshalText` of the richest
variant (§4.3): the canonical lowercase long-form token per field. -/
def TickerField.MarshalText (tf : TickerField) : Except Err String :=
  if tf = TickerLast then .ok "last"
  else if tf = TickerAsk then .ok "ask"
  else if tf = TickerBid then .ok "bid"
  else if tf = TickerChange then .ok "change"
  else if tf = TickerPercentChange then .ok "percent_change"
  else if tf = TickerVolume then .ok "volume"
  else .error ErrInvalidTickerField

/-- Modelled from the spec: `TickerField.MarshalJSON` of the richest
variant (§6): a quoted-string JSON scalar wrapping the text form, the
same invalid-field error otherwise. -/
def TickerField.MarshalJSON (tf : TickerField) : Except Err String :=
  if tf = TickerLast then .ok (jsonMarshalString "last")
  else if tf = TickerAsk then .ok (jsonMarshalString "ask")
  else if tf = TickerBid then .ok (jsonMarshalString "bid")
  else if tf = TickerChange then .ok (jsonMarshalString "change")
  else if tf = TickerPercentChange then .ok (jsonMarshalString "percent_change")
  else if tf = TickerVolume then .ok (jsonMarshalString "volume")
  else .error ErrInvalidTickerField

/-- Modelled from the spec: `TickerField.UnmarshalJSON` of the richest
variant (§4.3/§6): decode the JSON string container, lowercase, then
match the long-form token or the short-form alias of each of the six
members; the receiver is assigned only on success. -/
def TickerField.UnmarshalJSON (tf : TickerField) (d : String) : TickerField × Option Err :=
  match jsonUnmarshalString d with
  | .error e => (tf, some e)
  | .ok t0 =>
    let t := stringsToLower t0
    if t = "last" ∨ t = "l" then (TickerLast, none)
    else if t = "ask" ∨ t = "a" then (TickerAsk, none)
    else if t = "bid" ∨ t = "b" then (TickerBid, none)
    else if t = "change" ∨ t = "c" then (TickerChange, none)
    else if t = "percent_change" ∨ t = "pc" then (TickerPercentChange, none)
    else if t = "volume" ∨ t = "v" then (TickerVolume, none)
    else (tf, some ErrInvalidTickerField)

/-- Modelled from the spec: `TickerField.Extract` of the richest
variant (§4.4): the named attribute for a member, decimal zero for any
other code. -/
def TickerField.Extract (tf : TickerField) (t : Ticker) : Decimal :=
  if tf = TickerLast then t.Last
  else if tf = TickerAsk then t.Ask
  else if tf = TickerBid then t.Bid
  else if tf = TickerChange then t.Change
  else if tf = TickerPercentChange then t.PercentChange
  else if tf = TickerVolume then t.Volume
  else Decimal.zero

end Rich

/-- A concrete candle, used to instantiate witness statements (its
values mirror those in the repository's tests). -/
def testCandle : Candle :=
  ⟨0, NewFromInt 30, NewFromInt 30, NewFromInt 30, NewFromInt 30, NewFromInt 30⟩

/-- Membership characterization of `CandleField.Validate`. -/
theorem candle_validate_iff (cf : CandleField) :
    CandleField.Validate cf = .ok () ↔
      (cf = CandleOpen ∨ cf = CandleHigh ∨ cf = CandleLow ∨ cf = CandleClose ∨
        cf = CandleVolume) := by
  unfold CandleField.Validate
  split_ifs with h <;> simp [h]

/-- Membership characterization of `TickerField.Validate`. -/
theorem ticker_validate_iff (tf : TickerField) :
    TickerField.Validate tf = .ok () ↔
      (tf = TickerLast ∨ tf = TickerAsk ∨ tf = TickerBid ∨ tf = TickerChange) := by
  unfold TickerField.Validate
  split_ifs with h <;> simp [h]

/-- Membership characterization of `Rich.TickerField.Validate`. -/
theorem rich_validate_iff (tf : Rich.TickerField) :
    Rich.TickerField.Validate tf = .ok () ↔
      (tf = Rich.TickerLast ∨ tf = Rich.TickerAsk ∨ tf = Rich.TickerBid ∨
        tf = Rich.TickerChange ∨ tf = Rich.TickerPercentChange ∨ tf = Rich.TickerVolume) := by
  unfold Rich.TickerField.Validate
  split_ifs with h <;> simp [h]

/-- The append loop of `FromCandles` is a map over the input. -/
theorem FromCandles_eq_map (cc : List Candle) (cf : CandleField) :
    FromCandles cc cf = cc.map (CandleField.Extract cf) := by
  have h : ∀ (l : List Candle) (acc : List Decimal),
      l.foldl (fun res c => res ++ [CandleField.Extract cf c]) acc =
        acc ++ l.map (CandleField.Extract cf) := by
    intro l
    induction l with
    | nil => intro acc; simp
    | cons c l ih => intro acc; simp [ih]
  simpa [FromCandles] using h cc []

/-- C1: for every valid field in either enumeration (and in the
spec-modelled six-member ticker enumeration), decoding the text produced
by encoding the field yields the field again, from any prior receiver
value, with no error. -/
theorem claim1_decode_encode_roundtrip :
    (∀ (cf x : CandleField), CandleField.Validate cf = .ok () →
      ∃ s, CandleField.MarshalJSON cf = .ok s ∧ CandleField.UnmarshalJSON x s = (cf, none)) ∧
    (∀ (tf x : TickerField), TickerField.Validate tf = .ok () →
      ∃ s, TickerField.MarshalJSON tf = .ok s ∧ TickerField.UnmarshalJSON x s = (tf, none)) ∧
    (∀ (tf x : Rich.TickerField), Rich.TickerField.Validate tf = .ok () →
      ∃ s, Rich.TickerField.MarshalJSON tf = .ok s ∧
        Rich.TickerField.UnmarshalJSON x s = (tf, none)) := by
  refine ⟨fun cf x h => ?_, fun tf x h => ?_, fun tf x h => ?_⟩
  · rw [candle_validate_iff] at h
    rcases h with h | h | h | h | h <;> subst h <;> exact ⟨_, rfl, rfl⟩
  · rw [ticker_validate_iff] at h
    rcases h with h | h | h | h <;> subst h <;> exact ⟨_, rfl, rfl⟩
  · rw [rich_validate_iff] at h
    rcases h with h | h | h | h | h | h <;> subst h <;> exact ⟨_, rfl, rfl⟩

/-- C1 witness: the round trip at the concrete field `CandleOpen`. -/
theorem claim1_decode_encode_roundtrip_witness :
    ∃ s, CandleField.MarshalJSON CandleOpen = .ok s ∧
      CandleField.UnmarshalJSON 0 s = (CandleOpen, none) :=
  claim1_decode_encode_roundtrip.1 CandleOpen 0 rfl

/-- C2: the six-member ticker enumeration is exactly
\x7bLast, Ask, Bid, Change, PercentChange, Volume\x7d: the six codes are
pairwise distinct and non-zero, `Validate` accepts a code exactly when
it is one of the six, and each member is encodable, decodable and
extractable. -/
theorem claim2_ticker_closed_set :
    ([Rich.TickerLast, Rich.TickerAsk, Rich.TickerBid, Rich.TickerChange,
        Rich.TickerPercentChange, Rich.TickerVolume].Nodup ∧
      Rich.TickerLast ≠ 0 ∧ Rich.TickerAsk ≠ 0 ∧ Rich.TickerBid ≠ 0 ∧
      Rich.TickerChange ≠ 0 ∧ Rich.TickerPercentChange ≠ 0 ∧ Rich.TickerVolume ≠ 0) ∧
    (∀ tf : Rich.TickerField, Rich.TickerField.Validate tf = .ok () ↔
      (tf = Rich.TickerLast ∨ tf = Rich.TickerAsk ∨ tf = Rich.TickerBid ∨
        tf = Rich.TickerChange ∨ tf = Rich.TickerPercentChange ∨ tf = Rich.TickerVolume)) ∧
    (Rich.TickerField.MarshalText Rich.TickerLast = .ok "last" ∧
      Rich.TickerField.MarshalText Rich.TickerAsk = .ok "ask" ∧
      Rich.TickerField.MarshalText Rich.TickerBid = .ok "bid" ∧
      Rich.TickerField.MarshalText Rich.TickerChange = .ok "change" ∧
      Rich.TickerField.MarshalText Rich.TickerPercentChange = .ok "percent_change" ∧
      Rich.TickerField.MarshalText Rich.TickerVolume = .ok "volume") ∧
    (∀ x : Rich.TickerField,
      Rich.TickerField.UnmarshalJSON x "\"last\"" = (Rich.TickerLast, none) ∧
      Rich.TickerField.UnmarshalJSON x "\"ask\"" = (Rich.TickerAsk, none) ∧
      Rich.TickerField.UnmarshalJSON x "\"bid\"" = (Rich.TickerBid, none) ∧
      Rich.TickerField.UnmarshalJSON x "\"change\"" = (Rich.TickerChange, none) ∧
      Rich.TickerField.UnmarshalJSON x "\"percent_change\"" = (Rich.TickerPercentChange, none) ∧
      Rich.TickerField.UnmarshalJSON x "\"volume\"" = (Rich.TickerVolume, none)) ∧
    (∀ t : Rich.Ticker,
      Rich.TickerField.Extract Rich.TickerLast t = t.Last ∧
      Rich.TickerField.Extract Rich.TickerAsk t = t.Ask ∧
      Rich.TickerField.Extract Rich.TickerBid t = t.Bid ∧
      Rich.TickerField.Extract Rich.TickerChange t = t.Change ∧
      Rich.TickerField.Extract Rich.TickerPercentChange t = t.PercentChange ∧
      Rich.TickerField.Extract Rich.TickerVolume t = t.Volume) :=
  ⟨by constructor <;> decide, rich_validate_iff,
    ⟨rfl, rfl, rfl, rfl, rfl, rfl⟩,
    fun _ => ⟨rfl, rfl, rfl, rfl, rfl, rfl⟩,
    fun _ => ⟨rfl, rfl, rfl, rfl, rfl, rfl⟩⟩

/-- C3: for every integer code outside a field enumeration's closed
set, `Validate` fails with the invalid-field error, the encoders fail
with the same invalid-field error, and `Extract` returns decimal zero
regardless of the record's contents. -/
theorem claim3_nonmember_agreement :
    (∀ cf : CandleField,
      ¬(cf = CandleOpen ∨ cf = CandleHigh ∨ cf = CandleLow ∨ cf = CandleClose ∨
          cf = CandleVolume) →
      CandleField.Validate cf = .error ErrInvalidCandleField ∧
      CandleField.MarshalJSON cf = .error ErrInvalidCandleField ∧
      CandleField.MarshalText cf = .error ErrInvalidCandleField ∧
      ∀ c : Candle, CandleField.Extract cf c = Decimal.zero) ∧
    (∀ tf : TickerField,
      ¬(tf = TickerLast ∨ tf = TickerAsk ∨ tf = TickerBid ∨ tf = TickerChange) →
      TickerField.Validate tf = .error ErrInvalidTickerField ∧
      TickerField.MarshalJSON tf = .error ErrInvalidTickerField ∧
      ∀ t : Ticker, TickerField.Extract tf t = Decimal.zero) ∧
    (∀ tf : Rich.TickerField,
      ¬(tf = Rich.TickerLast ∨ tf = Rich.TickerAsk ∨ tf = Rich.TickerBid ∨
          tf = Rich.TickerChange ∨ tf = Rich.TickerPercentChange ∨ tf = Rich.TickerVolume) →
      Rich.TickerField.Validate tf = .error ErrInvalidTickerField ∧
      Rich.TickerField.MarshalText tf = .error ErrInvalidTickerField ∧
      Rich.TickerField.MarshalJSON tf = .error ErrInvalidTickerField ∧
      ∀ t : Rich.Ticker, Rich.TickerField.Extract tf t = Decimal.zero) := by
  refine ⟨fun cf h => ?_, fun tf h => ?_, fun tf h => ?_⟩
  · push_neg at h
    obtain ⟨h1, h2, h3, h4, h5⟩ := h
    exact ⟨by simp [CandleField.Validate, h1, h2, h3, h4, h5],
      by simp [CandleField.MarshalJSON, h1, h2, h3, h4, h5],
      by simp [CandleField.MarshalText, h1, h2, h3, h4, h5],
      fun c => by simp [CandleField.Extract, h1, h2, h3, h4, h5]⟩
  · push_neg at h
    obtain ⟨h1, h2, h3, h4⟩ := h
    exact ⟨by simp [TickerField.Validate, h1, h2, h3, h4],
      by simp [TickerField.MarshalJSON, h1, h2, h3, h4],
      fun t => by simp [TickerField.Extract, h1, h2, h3, h4]⟩
  · push_neg at h
    obtain ⟨h1, h2, h3, h4, h5, h6⟩ := h
    exact ⟨by simp [Rich.TickerField.Validate, h1, h2, h3, h4, h5, h6],
      by simp [Rich.TickerField.MarshalText, h1, h2, h3, h4, h5, h6],
      by simp [Rich.TickerField.MarshalJSON, h1, h2, h3, h4, h5, h6],
      fun t => by simp [Rich.TickerField.Extract, h1, h2, h3, h4, h5, h6]⟩

/-- C3 witness: the three operations agree on the non-member candle
code 70 (the code the repository's tests use). -/
theorem claim3_nonmember_agreement_witness :
    CandleField.Validate 70 = .error ErrInvalidCandleField ∧
    CandleField.MarshalJSON 70 = .error ErrInvalidCandleField ∧
    CandleField.MarshalText 70 = .error ErrInvalidCandleField ∧
    CandleField.Extract 70 testCandle = Decimal.zero :=
  ⟨(claim3_nonmember_agreement.1 70 (by decide)).1,
    (claim3_nonmember_agreement.1 70 (by decide)).2.1,
    (claim3_nonmember_agreement.1 70 (by decide)).2.2.1,
    (claim3_nonmember_agreement.1 70 (by decide)).2.2.2 testCandle⟩

/-- C4: `Extract` is total and, on every valid member of each
enumeration, returns the record's correspondingly named attribute, for
every record. -/
theorem claim4_extract_named_attribute :
    (∀ c : Candle,
      CandleField.Extract CandleOpen c = c.Open ∧
      CandleField.Extract CandleHigh c = c.High ∧
      CandleField.Extract CandleLow c = c.Low ∧
      CandleField.Extract CandleClose c = c.Close ∧
      CandleField.Extract CandleVolume c = c.Volume) ∧
    (∀ t : Ticker,
      TickerField.Extract TickerLast t = t.Last ∧
      TickerField.Extract TickerAsk t = t.Ask ∧
      TickerField.Extract TickerBid t = t.Bid ∧
      TickerField.Extract TickerChange t = t.Change) ∧
    (∀ t : Rich.Ticker,
      Rich.TickerField.Extract Rich.TickerLast t = t.Last ∧
      Rich.TickerField.Extract Rich.TickerAsk t = t.Ask ∧
      Rich.TickerField.Extract Rich.TickerBid t = t.Bid ∧
      Rich.TickerField.Extract Rich.TickerChange t = t.Change ∧
      Rich.TickerField.Extract Rich.TickerPercentChange t = t.PercentChange ∧
      Rich.TickerField.Extract Rich.TickerVolume t = t.Volume) :=
  ⟨fun _ => ⟨rfl, rfl, rfl, rfl, rfl⟩, fun _ => ⟨rfl, rfl, rfl, rfl⟩,
    fun _ => ⟨rfl, rfl, rfl, rfl, rfl, rfl⟩⟩

/-- C5: `FromCandles` maps `Extract` over the input: the empty list
yields the empty sequence, the output length equals the input length,
and the i-th output element is `Extract` of the i-th input candle, for
every field code, valid or not. -/
theorem claim5_fromcandles_projection :
    (∀ cf : CandleField, FromCandles [] cf = []) ∧
    (∀ (cf : CandleField) (cc : List Candle), (FromCandles cc cf).length = cc.length) ∧
    (∀ (cf : CandleField) (cc : List Candle) (i : Nat)
      (h1 : i < (FromCandles cc cf).length) (h2 : i < cc.length),
      (FromCandles cc cf).get ⟨i, h1⟩ = CandleField.Extract cf (cc.get ⟨i, h2⟩)) := by
  refine ⟨fun cf => rfl, fun cf cc => by simp [FromCandles_eq_map],
    fun cf cc i h1 h2 => ?_⟩
  simp [List.get_eq_getElem, FromCandles_eq_map]

/-- C5 witness: the projection at a concrete one-candle list. -/
theorem claim5_fromcandles_projection_witness :
    (FromCandles [testCandle] CandleOpen).get ⟨0, by decide⟩ =
      CandleField.Extract CandleOpen (([testCandle] : List Candle).get ⟨0, by decide⟩) :=
  claim5_fromcandles_projection.2.2 CandleOpen [testCandle] 0 (by decide) (by decide)

/-- C6: a payload the JSON layer rejects makes `UnmarshalJSON` fail
with the structural malformed-payload kind before any token matching,
never with the invalid-field error; a well-formed quoted string whose
(lowercased) content is no recognized token fails with the
invalid-field error. In particular the unterminated payload
`\x7b"70"` fails structurally and the well-formed `"70"` fails with the
invalid-field error, in both enumerations. -/
theorem claim6_malformed_before_matching :
    (∀ (x : CandleField) (d : String), jsonUnmarshalString d = .error ErrMalformedPayload →
      CandleField.UnmarshalJSON x d = (x, some ErrMalformedPayload)) ∧
    (∀ (x : TickerField) (d : String), jsonUnmarshalString d = .error ErrMalformedPayload →
      TickerField.UnmarshalJSON x d = (x, some ErrMalformedPayload)) ∧
    (∀ (x : Rich.TickerField) (d : String), jsonUnmarshalString d = .error ErrMalformedPayload →
      Rich.TickerField.UnmarshalJSON x d = (x, some ErrMalformedPayload)) ∧
    (∀ (x : CandleField) (d s : String), jsonUnmarshalString d = .ok s →
      stringsToLower s ∉
        (["open", "o", "high", "h", "low", "l", "close", "c", "volume", "v"] : List String) →
      CandleField.UnmarshalJSON x d = (x, some ErrInvalidCandleField)) ∧
    (∀ x : CandleField,
      CandleField.UnmarshalJSON x "\x7b\"70\"" = (x, some ErrMalformedPayload) ∧
      CandleField.UnmarshalJSON x "\"70\"" = (x, some ErrInvalidCandleField)) ∧
    (∀ x : TickerField,
      TickerField.UnmarshalJSON x "\x7b\"70\"" = (x, some ErrMalformedPayload) ∧
      TickerField.UnmarshalJSON x "\"70\"" = (x, some ErrInvalidTickerField)) := by
  refine ⟨fun x d h => ?_, fun x d h => ?_, fun x d h => ?_, fun x d s h hs => ?_,
    fun _ => ⟨rfl, rfl⟩, fun _ => ⟨rfl, rfl⟩⟩
  · simp [CandleField.UnmarshalJSON, h]
  · simp [TickerField.UnmarshalJSON, h]
  · simp [Rich.TickerField.UnmarshalJSON, h]
  · simp only [List.mem_cons, List.not_mem_nil, or_false, not_or] at hs
    obtain ⟨n1, n2, n3, n4, n5, n6, n7, n8, n9, n10⟩ := hs
    simp [CandleField.UnmarshalJSON, h, n1, n2, n3, n4, n5, n6, n7, n8, n9, n10]

/-- C6 witness: the malformed-payload branch at the unterminated
concrete payload the tests use. -/
theorem claim6_malformed_before_matching_witness :
    CandleField.UnmarshalJSON 0 "\x7b\"70\"" = (0, some ErrMalformedPayload) :=
  claim6_malformed_before_matching.1 0 "\x7b\"70\"" rfl

/-- C7: every short-form alias of the §4.3 table decodes to its field:
o/h/l/c/v for the candle fields and l/a/b/c/pc/v for the six ticker
fields, from any prior receiver value. -/
theorem claim7_short_form_aliases :
    (∀ x : CandleField,
      CandleField.UnmarshalJSON x "\"o\"" = (CandleOpen, none) ∧
      CandleField.UnmarshalJSON x "\"h\"" = (CandleHigh, none) ∧
      CandleField.UnmarshalJSON x "\"l\"" = (CandleLow, none) ∧
      CandleField.UnmarshalJSON x "\"c\"" = (CandleClose, none) ∧
      CandleField.UnmarshalJSON x "\"v\"" = (CandleVolume, none)) ∧
    (∀ x : Rich.TickerField,
      Rich.TickerField.UnmarshalJSON x "\"l\"" = (Rich.TickerLast, none) ∧
      Rich.TickerField.UnmarshalJSON x "\"a\"" = (Rich.TickerAsk, none) ∧
      Rich.TickerField.UnmarshalJSON x "\"b\"" = (Rich.TickerBid, none) ∧
      Rich.TickerField.UnmarshalJSON x "\"c\"" = (Rich.TickerChange, none) ∧
      Rich.TickerField.UnmarshalJSON x "\"pc\"" = (Rich.TickerPercentChange, none) ∧
      Rich.TickerField.UnmarshalJSON x "\"v\"" = (Rich.TickerVolume, none)) :=
  ⟨fun _ => ⟨rfl, rfl, rfl, rfl, rfl⟩, fun _ => ⟨rfl, rfl, rfl, rfl, rfl, rfl⟩⟩

/-- C8: the decoder is case-insensitive: for every valid field,
decoding the uppercased form of the encoded text yields the field
again. -/
theorem claim8_case_insensitive_decode :
    (∀ (cf x : CandleField), CandleField.Validate cf = .ok () →
      ∃ s, CandleField.MarshalJSON cf = .ok s ∧
        CandleField.UnmarshalJSON x (stringsToUpper s) = (cf, none)) ∧
    (∀ (tf x : TickerField), TickerField.Validate tf = .ok () →
      ∃ s, TickerField.MarshalJSON tf = .ok s ∧
        TickerField.UnmarshalJSON x (stringsToUpper s) = (tf, none)) ∧
    (∀ (tf x : Rich.TickerField), Rich.TickerField.Validate tf = .ok () →
      ∃ s, Rich.TickerField.MarshalJSON tf = .ok s ∧
        Rich.TickerField.UnmarshalJSON x (stringsToUpper s) = (tf, none)) := by
  refine ⟨fun cf x h => ?_, fun tf x h => ?_, fun tf x h => ?_⟩
  · rw [candle_validate_iff] at h
    rcases h with h | h | h | h | h <;> subst h <;> exact ⟨_, rfl, rfl⟩
  · rw [ticker_validate_iff] at h
    rcases h with h | h | h | h <;> subst h <;> exact ⟨_, rfl, rfl⟩
  · rw [rich_validate_iff] at h
    rcases h with h | h | h | h | h | h <;> subst h <;> exact ⟨_, rfl, rfl⟩

/-- C8 witness: the uppercased round trip at the concrete field
`CandleOpen`. -/
theorem claim8_case_insensitive_decode_witness :
    ∃ s, CandleField.MarshalJSON CandleOpen = .ok s ∧
      CandleField.UnmarshalJSON 0 (stringsToUpper s) = (CandleOpen, none) :=
  claim8_case_insensitive_decode.1 CandleOpen 0 rfl

/-- C9: the JSON encoder is the text encoder wrapped in a quoted-string
JSON scalar: on every field code the two surfaces return the same
token, quoted, or the exact same invalid-field error. -/
theorem claim9_json_wraps_text_encoding :
    (∀ cf : CandleField,
      CandleField.MarshalJSON cf = (CandleField.MarshalText cf).map jsonMarshalString) ∧
    (∀ tf : Rich.TickerField,
      Rich.TickerField.MarshalJSON tf = (Rich.TickerField.MarshalText tf).map jsonMarshalString) := by
  refine ⟨fun cf => ?_, fun tf => ?_⟩
  · unfold CandleField.MarshalJSON CandleField.MarshalText
    split_ifs <;> rfl
  · unfold Rich.TickerField.MarshalJSON Rich.TickerField.MarshalText
    split_ifs <;> rfl

/-- C10: whenever `UnmarshalJSON` returns an error — structural or
invalid token — the receiver value it started from is returned
unchanged; the decoded field is assigned only on the success path. -/
theorem claim10_receiver_unchanged_on_error :
    (∀ (x : CandleField) (d : String) (e : Err),
      (CandleField.UnmarshalJSON x d).2 = some e → (CandleField.UnmarshalJSON x d).1 = x) ∧
    (∀ (x : TickerField) (d : String) (e : Err),
      (TickerField.UnmarshalJSON x d).2 = some e → (TickerField.UnmarshalJSON x d).1 = x) ∧
    (∀ (x : Rich.TickerField) (d : String) (e : Err),
      (Rich.TickerField.UnmarshalJSON x d).2 = some e →
        (Rich.TickerField.UnmarshalJSON x d).1 = x) := by
  refine ⟨fun x d e h => ?_, fun x d e h => ?_, fun x d e h => ?_⟩
  · cases hj : jsonUnmarshalString d with
    | error e2 => simp [CandleField.UnmarshalJSON, hj]
    | ok s =>
      simp only [CandleField.UnmarshalJSON, hj] at h ⊢
      split_ifs at h ⊢
      simp_all
  · cases hj : jsonUnmarshalString d with
    | error e2 => simp [TickerField.UnmarshalJSON, hj]
    | ok s =>
      simp only [TickerField.UnmarshalJSON, hj] at h ⊢
      split_ifs at h ⊢
      simp_all
  · cases hj : jsonUnmarshalString d with
    | error e2 => simp [Rich.TickerField.UnmarshalJSON, hj]
    | ok s =>
      simp only [Rich.TickerField.UnmarshalJSON, hj] at h ⊢
      split_ifs at h ⊢
      simp_all

/-- C10 witness: the receiver 70 is preserved on the failing payload
`"70"`. -/
theorem claim10_receiver_unchanged_on_error_witness :
    (CandleField.UnmarshalJSON 70 "\"70\"").1 = 70 :=
  claim10_receiver_unchanged_on_error.1 70 "\"70\"" ErrInvalidCandleField rfl

end Chartype
